import Mathlib

/-!
# Verification of the DC Metro transit-query core (`functions/src/wmata.ts`)

A shallow embedding of the resolution-and-aggregation pipeline of the
DC Metro Google Action repository.  The three exported operations of
`wmata.ts` — `fetchIncidents`, `fetchTrainTimetable`, `fetchBusTimetable` —
are embedded as pure Lean functions over an explicit environment that
records the outcome of each external fetch (`Except Unit α`: `.error ()`
stands for a network/parse failure, i.e. a thrown JS exception).

The helper module `functions/src/util.ts` (station search, prediction
sorting, incident relevance) is not among the provided sources; the
definitions taken from it are modelled from the specification and say so
in their doc comments.
-/

namespace DCMetro

/-- A value stored in the `lines` array built by `fetchTrainTimetable`
(lines 101–117 of `wmata.ts`).  JS lets the array hold the string line
codes as well as `undefined` (which the misspelled property access
`stationData.lineCode2` on line 108 produces), so the element type has
both constructors. -/
inductive LineItem where
  | str : String → LineItem
  | undef : LineItem
deriving DecidableEq, Repr

/-- One platform entry of the WMATA station reference feed, with the
fields `wmata.ts` reads.  `none` models JSON `null`. -/
structure StationRecord where
  Code : String
  Name : String
  LineCode1 : Option String
  LineCode2 : Option String
  LineCode3 : Option String
  LineCode4 : Option String
  StationTogether1 : Option String
deriving DecidableEq, Repr

/-- One rail arrival prediction, with the fields `wmata.ts` reads
(`Line` and `Destination` feed the sentinel filter, `Min` feeds the
sort). -/
structure PredictionEntry where
  Line : String
  Destination : String
  Min : String
deriving DecidableEq, Repr

/-- One bus arrival prediction.  `fetchBusTimetable` passes these through
untouched, so only a representative payload is modelled. -/
structure BusPrediction where
  RouteID : String
  Minutes : Nat
deriving DecidableEq, Repr

/-- One service-disruption record, with the delimiter-joined
affected-lines field the relevance filter reads. -/
structure IncidentRecord where
  LinesAffected : String
  Description : String
deriving DecidableEq, Repr

/-- The sentinel filter of `wmata.ts` lines 91–96: keep an entry iff its
`Line` is neither `"None"` nor `"No"` and its `Destination` is neither
`"ssenger"` nor `"Train"`. -/
def predictionFilter (item : PredictionEntry) : Bool :=
  item.Line ≠ "None" && item.Line ≠ "No" &&
    (item.Destination ≠ "ssenger" && item.Destination ≠ "Train")

/-- The numeric value of the digit characters of a string, used to
order numeric minute values. -/
def digitsValue (cs : List Char) : Nat :=
  cs.foldl (fun acc c => acc * 10 + (c.toNat - '0'.toNat)) 0

/-- Modelled from the spec: `sortPredictions` lives in
`functions/src/util.ts`, which is not among the provided sources.
Spec §4.2 orders ascending by arrival minutes, with boarding-now
(`"BRD"`) before arriving-now (`"ARR"`) before any numeric value.  This
key realises that order. -/
def minutesKey (s : String) : Nat :=
  if s = "BRD" then 0
  else if s = "ARR" then 1
  else 2 + digitsValue (s.data.filter Char.isDigit)

/-- Stable insertion used by `sortPredictions`: an element is placed
after every already-placed element of smaller-or-equal key. -/
def insertPrediction (e : PredictionEntry) : List PredictionEntry → List PredictionEntry
  | [] => [e]
  | x :: xs =>
    if minutesKey e.Min ≤ minutesKey x.Min then e :: x :: xs
    else x :: insertPrediction e xs

/-- Modelled from the spec: `sortPredictions` of `functions/src/util.ts`
(not among the provided sources) — a stable ascending sort on the
arrival-minutes key (spec §4.2). -/
def sortPredictions : List PredictionEntry → List PredictionEntry
  | [] => []
  | x :: xs => insertPrediction x (sortPredictions xs)

/-- JS `String.prototype.toLowerCase()`: lower-case every character. -/
def strToLower (s : String) : String :=
  String.mk (s.data.map Char.toLower)

/-- JS `String.prototype.includes`: `strIncludes hay needle` is true iff
`needle` occurs contiguously inside `hay`. -/
def strIncludes (hay needle : String) : Bool :=
  decide (List.IsInfix needle.data hay.data)

/-- Modelled from the spec: `stationPartialSearch` of
`functions/src/util.ts` (not among the provided sources).  Spec §4.1:
the first record whose lower-cased name contains the (already
lower-cased) query as a substring, or whose query contains the name;
first match in reference-data order wins. -/
def stationPartialSearch (q : String) (stations : List StationRecord) :
    Option StationRecord :=
  stations.find? fun st =>
    strIncludes (strToLower st.Name) q || strIncludes q (strToLower st.Name)

/-- The resolver of `wmata.ts` lines 54–59: partial search first, fuzzy
search only when it found nothing.  The fuzzy strategy
(`stationFuzzySearch` of `functions/src/util.ts`, not among the provided
sources; spec §4.1 describes it only as a threshold similarity search)
is kept as an explicit parameter, so every theorem below quantifies over
it. -/
def resolveStation (fuzzy : String → List StationRecord → Option StationRecord)
    (q : String) (stations : List StationRecord) : Option StationRecord :=
  match stationPartialSearch q stations with
  | some r => some r
  | none => fuzzy q stations

/-- The token list of a delimiter-joined affected-lines field:
split on `";"`, trim whitespace, drop empty fragments. -/
def lineTokens (s : String) : List String :=
  ((s.splitOn ";").map String.trim).filter fun t => t ≠ ""

/-- Whether an incident is relevant to the requested identifiers: some
token of its affected-lines field occurs among them (an `undef` array
slot equals no string token). -/
def incidentRelevant (lines : List LineItem) (inc : IncidentRecord) : Bool :=
  (lineTokens inc.LinesAffected).any fun tok => lines.contains (LineItem.str tok)

/-- Modelled from the spec: `getRelevantIncidents` of
`functions/src/util.ts` (not among the provided sources).  Spec §4.3:
keep exactly the incidents whose affected-lines tokens intersect the
requested identifiers, in feed order. -/
def getRelevantIncidents (lines : List LineItem) (incidents : List IncidentRecord) :
    List IncidentRecord :=
  incidents.filter (incidentRelevant lines)

/-- The line-code extraction of `wmata.ts` lines 101–117, exactly as the
source reads: each of the four codes is pushed when non-null, but the
second push reads the misspelled property `lineCode2` (line 108), which
does not exist on the record and therefore yields JS `undefined`. -/
def extractLines (st : StationRecord) : List LineItem :=
  (match st.LineCode1 with | some c => [LineItem.str c] | none => []) ++
  (match st.LineCode2 with | some _ => [LineItem.undef] | none => []) ++
  (match st.LineCode3 with | some c => [LineItem.str c] | none => []) ++
  (match st.LineCode4 with | some c => [LineItem.str c] | none => [])

/-- The line-code extraction as the spec states it (§3 RelevanceQuery,
§4.4, §9): the non-null values of codes 1..4 in order, duplicates kept.
Stated separately so the source behaviour can be compared against it. -/
def extractLinesSpec (st : StationRecord) : List LineItem :=
  (match st.LineCode1 with | some c => [LineItem.str c] | none => []) ++
  (match st.LineCode2 with | some c => [LineItem.str c] | none => []) ++
  (match st.LineCode3 with | some c => [LineItem.str c] | none => []) ++
  (match st.LineCode4 with | some c => [LineItem.str c] | none => [])

/-- The stop-id sanitisation of `wmata.ts` line 143,
`stop.replace(/\D/g, '')`: scan the characters and keep exactly the
digits, in order. -/
def sanitizeStopId (s : String) : String :=
  String.mk (go s.data)
where
  /-- Character scan of the global regex replacement: a digit is kept,
  any other character is replaced by the empty string. -/
  go : List Char → List Char
    | [] => []
    | c :: cs => if c.isDigit then c :: go cs else go cs

/-- The JS value `fetchTrainTimetable` resolves to: the assembled
response object (line 122), `null` for an unmatched station (line 128),
or the empty array from the `catch` (line 131). -/
inductive TrainResult where
  | found (stationName : String) (predictions : List PredictionEntry)
      (incidents : List IncidentRecord)
  | notFound
  | errorEmpty
deriving DecidableEq, Repr

/-- The JS value `fetchBusTimetable` resolves to: the assembled response
object (lines 157–161) or the empty array from the `catch` (line 163). -/
inductive BusResult where
  | found (stopName : String) (predictions : List BusPrediction)
      (incidents : List IncidentRecord)
  | errorEmpty
deriving DecidableEq, Repr

/-- One external fetch performed by the rail path, recorded in order of
issue. -/
inductive FetchEvent where
  | stationList
  | prediction (code : String)
  | railIncidents
deriving DecidableEq, Repr

/-- The outcomes of the external feeds a rail query may touch.
`.error ()` models a network or JSON-parse failure (a thrown JS
exception at that `await`). -/
structure RailEnv where
  stations : Except Unit (List StationRecord)
  predictions : String → Except Unit (List PredictionEntry)
  incidents : Except Unit (List IncidentRecord)

/-- The outcomes of the external feeds a bus query may touch. -/
structure BusEnv where
  busPredictions : String → Except Unit (String × List BusPrediction)
  busIncidents : Except Unit (List IncidentRecord)

/-- The function `fetchIncidents` of `wmata.ts` lines 19–36: return the parsed feed,
or the empty array when its own `try`/`catch` swallows a failure. -/
def fetchIncidents (feed : Except Unit (List IncidentRecord)) : List IncidentRecord :=
  match feed with
  | .ok incidents => incidents
  | .error _ => []

/-- The truthiness test `if (stationData.StationTogether1)` of line 71:
JS `null`/missing and the empty string are falsy, so the secondary
platform code is used exactly when it is a non-empty string. -/
def stationTogetherCode (st : StationRecord) : Option String :=
  match st.StationTogether1 with
  | some s => if s = "" then none else some s
  | none => none

/-- Lines 119–126 of `wmata.ts`: filter the merged trains, extract the
line codes, fetch the rail incident feed (whose failures
`fetchIncidents` swallows by itself), filter the incidents, assemble the
response object. -/
def railAssemble (env : RailEnv) (stationData : StationRecord)
    (trains : List PredictionEntry) : TrainResult :=
  let predictionData := trains.filter predictionFilter
  let lines := extractLines stationData
  let incidentData := fetchIncidents env.incidents
  let incidents := getRelevantIncidents lines incidentData
  .found stationData.Name predictionData incidents

/-- The `try` block of `fetchTrainTimetable` (lines 44–129), with the
trace of fetches it issued: `.error ()` is a JS exception escaping the
block, `.ok r` the value the block returns.  The fuzzy strategy is a
parameter (see `resolveStation`). -/
def fetchTrainTimetableBody
    (fuzzy : String → List StationRecord → Option StationRecord)
    (env : RailEnv) (station : String) :
    Except Unit TrainResult × List FetchEvent :=
  match env.stations with
  | .error _ => (.error (), [.stationList])
  | .ok stations =>
    let stationName := strToLower station
    match resolveStation fuzzy stationName stations with
    | none => (.ok .notFound, [.stationList])
    | some stationData =>
      match env.predictions stationData.Code with
      | .error _ => (.error (), [.stationList, .prediction stationData.Code])
      | .ok primary =>
        match stationTogetherCode stationData with
        | none =>
          (.ok (railAssemble env stationData primary),
           [.stationList, .prediction stationData.Code, .railIncidents])
        | some code2 =>
          match env.predictions code2 with
          | .error _ =>
            (.error (),
             [.stationList, .prediction stationData.Code, .prediction code2])
          | .ok secondary =>
            (.ok (railAssemble env stationData (sortPredictions (primary ++ secondary))),
             [.stationList, .prediction stationData.Code, .prediction code2,
              .railIncidents])

/-- The `catch` of `fetchTrainTimetable` (lines 130–132): any exception
escaping the `try` block becomes the empty-array sentinel. -/
def fetchTrainTimetableT
    (fuzzy : String → List StationRecord → Option StationRecord)
    (env : RailEnv) (station : String) : TrainResult × List FetchEvent :=
  match fetchTrainTimetableBody fuzzy env station with
  | (.ok r, evs) => (r, evs)
  | (.error _, evs) => (.errorEmpty, evs)

/-- The function `fetchTrainTimetable` of `wmata.ts` lines 43–133: the caller-visible
value, without the fetch trace. -/
def fetchTrainTimetable
    (fuzzy : String → List StationRecord → Option StationRecord)
    (env : RailEnv) (station : String) : TrainResult :=
  (fetchTrainTimetableT fuzzy env station).1

/-- Modelled from the spec: `getRelevantBusIncidents` is called by
`fetchBusTimetable` (line 153) but defined nowhere in the provided
sources.  Spec §4.3 and §9 record it as an unimplemented stub — "until
that derivation is specified, the bus path returns no incidents", "a
stub returning nothing". -/
def getRelevantBusIncidents (_u : Unit) : List IncidentRecord := []

/-- The `try` block of `fetchBusTimetable` (lines 141–161): sanitise the
stop id, fetch predictions keyed by it, fetch the bus incident feed
(failures swallowed inside `fetchIncidents`), take the stubbed bus
incidents, assemble the response object. -/
def fetchBusTimetableBody (env : BusEnv) (stop : String) : Except Unit BusResult :=
  let sanitizedStopId := sanitizeStopId stop
  match env.busPredictions sanitizedStopId with
  | .error _ => .error ()
  | .ok predictionObj =>
    let _incidentData := fetchIncidents env.busIncidents
    let incidents := getRelevantBusIncidents ()
    .ok (.found predictionObj.1 predictionObj.2 incidents)

/-- The function `fetchBusTimetable` of `wmata.ts` lines 140–165: the `catch`
(lines 162–164) turns any exception from the `try` block into the
empty-array sentinel. -/
def fetchBusTimetable (env : BusEnv) (stop : String) : BusResult :=
  match fetchBusTimetableBody env stop with
  | .ok r => r
  | .error _ => .errorEmpty

/-! ## Concrete fixtures shared by the theorems below -/

/-- A reference-data fixture: the Metro Center platform record of the
spec's §8 end-to-end example. -/
def stMetroCenter : StationRecord :=
  ⟨"A01", "Metro Center", some "RD", some "BL", none, none, none⟩

/-- A single-platform station fixture with no line codes. -/
def stSingle : StationRecord :=
  ⟨"X01", "X", none, none, none, none, none⟩

/-- An unsorted two-element prediction feed: a 5-minute arrival listed
before a 2-minute arrival. -/
def unsortedFeed : List PredictionEntry :=
  [⟨"RD", "Glenmont", "5"⟩, ⟨"RD", "Shady Grove", "2"⟩]

/-- A rail environment whose prediction and incident feeds fail. -/
def railEnvW : RailEnv :=
  { stations := .ok [stMetroCenter],
    predictions := fun _ => .error (),
    incidents := .error () }

/-- A rail environment around `stSingle` and `unsortedFeed` where every
fetch succeeds. -/
def railEnvSingle : RailEnv :=
  { stations := .ok [stSingle],
    predictions := fun _ => .ok unsortedFeed,
    incidents := .ok [] }

/-- A rail environment around `stSingle` and `unsortedFeed` whose
incident feed fails. -/
def railEnvIncFail : RailEnv :=
  { stations := .ok [stSingle],
    predictions := fun _ => .ok unsortedFeed,
    incidents := .error () }

/-- A bus environment knowing one stop, keyed by its sanitised id. -/
def busEnvW : BusEnv :=
  { busPredictions := fun sid =>
      if sid = "3004076" then .ok ("Anacostia Station", [⟨"B2", 7⟩]) else .error (),
    busIncidents := .error () }

/-! ## Helper lemmas -/

/-- The character scan of the stop-id sanitisation keeps exactly the
digit characters. -/
theorem sanitizeStopId_go_eq_filter (cs : List Char) :
    sanitizeStopId.go cs = cs.filter Char.isDigit := by
  induction cs with
  | nil => rfl
  | cons c cs ih =>
    by_cases h : c.isDigit <;> simp [sanitizeStopId.go, List.filter_cons, h, ih]

/-- The value of `fetchTrainTimetable` is the not-found sentinel, the
error sentinel, or an assembled object whose prediction list is the
sentinel-filtered form of some fetched list and whose incident list
comes from the extracted line codes. -/
theorem fetchTrainTimetable_cases
    (fuzzy : String → List StationRecord → Option StationRecord)
    (env : RailEnv) (station : String) :
    fetchTrainTimetable fuzzy env station = .notFound ∨
    fetchTrainTimetable fuzzy env station = .errorEmpty ∨
    ∃ (sd : StationRecord) (trains : List PredictionEntry),
      fetchTrainTimetable fuzzy env station =
        .found sd.Name (trains.filter predictionFilter)
          (getRelevantIncidents (extractLines sd) (fetchIncidents env.incidents)) := by
  unfold fetchTrainTimetable fetchTrainTimetableT fetchTrainTimetableBody
  cases hs : env.stations with
  | error e => right; left; rfl
  | ok stations =>
    cases hr : resolveStation fuzzy (strToLower station) stations with
    | none => left; simp [hr]
    | some sd =>
      cases hp : env.predictions sd.Code with
      | error e => right; left; simp [hr, hp]
      | ok primary =>
        cases ht : stationTogetherCode sd with
        | none =>
          right; right
          exact ⟨sd, primary, by simp [hr, hp, ht, railAssemble]⟩
        | some code2 =>
          cases hp2 : env.predictions code2 with
          | error e => right; left; simp [hr, hp, ht, hp2]
          | ok secondary =>
            right; right
            exact ⟨sd, sortPredictions (primary ++ secondary),
              by simp [hr, hp, ht, hp2, railAssemble]⟩

/-! ## Claim theorems -/

/-- C9: for every stop query string, the stop identifier used for the
bus prediction fetch is the input with every non-digit character
removed, digits kept in order; `sanitize("stop #3004-076")` yields
`"3004076"`, and the bus result depends on the stop string only through
its digits. -/
theorem stopIdSanitizationDigitsOnly :
    (∀ s : String, (sanitizeStopId s).data = s.data.filter Char.isDigit) ∧
    sanitizeStopId "stop #3004-076" = "3004076" ∧
    (∀ (env : BusEnv) (s t : String), sanitizeStopId s = sanitizeStopId t →
      fetchBusTimetable env s = fetchBusTimetable env t) := by
  refine ⟨fun s => ?_, by decide, fun env s t h => ?_⟩
  · simp [sanitizeStopId, sanitizeStopId_go_eq_filter]
  · unfold fetchBusTimetable fetchBusTimetableBody
    rw [h]

/-- Witness for C9 at the spec's concrete example. -/
theorem stopIdSanitizationDigitsOnly_witness :
    sanitizeStopId "stop #3004-076" = "3004076" ∧
    fetchBusTimetable busEnvW "stop #3004-076" = fetchBusTimetable busEnvW "3004076" :=
  ⟨stopIdSanitizationDigitsOnly.2.1,
   stopIdSanitizationDigitsOnly.2.2 busEnvW "stop #3004-076" "3004076" (by decide)⟩

/-- C1: when the bus prediction fetch succeeds, `fetchBusTimetable`
returns the assembled object carrying the feed's stop name and
prediction sequence with an empty incident list, and that object is not
the empty-on-error sentinel. -/
theorem busPathReturnsAggregatedResult :
    ∀ (env : BusEnv) (stop stopName : String) (preds : List BusPrediction),
      env.busPredictions (sanitizeStopId stop) = .ok (stopName, preds) →
      fetchBusTimetable env stop = .found stopName preds [] ∧
        BusResult.found stopName preds [] ≠ BusResult.errorEmpty := by
  intro env stop stopName preds h
  refine ⟨?_, by simp⟩
  unfold fetchBusTimetable fetchBusTimetableBody
  simp [h, getRelevantBusIncidents]

/-- Witness for C1 at a concrete environment and stop query. -/
theorem busPathReturnsAggregatedResult_witness :
    fetchBusTimetable busEnvW "stop #3004-076" =
      .found "Anacostia Station" [⟨"B2", 7⟩] [] ∧
      BusResult.found "Anacostia Station" [⟨"B2", 7⟩] [] ≠ BusResult.errorEmpty :=
  busPathReturnsAggregatedResult busEnvW "stop #3004-076" "Anacostia Station"
    [⟨"B2", 7⟩] rfl

/-- C2: the relevance-query list is NOT built uniformly from the four
line codes — on a record whose `LineCode2` is non-null the source pushes
the value of the misspelled property `lineCode2`, i.e. JS `undefined`,
where the record's `LineCode2` value belongs (`wmata.ts` line 108).
Evaluated at a concrete record with codes RD, BL, OR. -/
theorem lineCodeExtractionNotUniform :
    extractLines ⟨"A01", "Metro Center", some "RD", some "BL", some "OR", none, none⟩ =
      [LineItem.str "RD", LineItem.undef, LineItem.str "OR"] ∧
    extractLines ⟨"A01", "Metro Center", some "RD", some "BL", some "OR", none, none⟩ ≠
      extractLinesSpec ⟨"A01", "Metro Center", some "RD", some "BL", some "OR", none, none⟩ :=
  ⟨by decide, by decide⟩

/-- C8: the incident filter keeps exactly the incidents whose
delimiter-joined affected-lines field shares a token with the requested
identifiers, in feed order, and an empty identifier list yields no
incidents. -/
theorem incidentRelevanceCharacterization :
    (∀ incidents : List IncidentRecord, getRelevantIncidents [] incidents = []) ∧
    (∀ (lines : List LineItem) (incidents : List IncidentRecord),
      List.Sublist (getRelevantIncidents lines incidents) incidents ∧
      ∀ inc : IncidentRecord,
        inc ∈ getRelevantIncidents lines incidents ↔
          inc ∈ incidents ∧
            ∃ tok ∈ lineTokens inc.LinesAffected, LineItem.str tok ∈ lines) := by
  refine ⟨fun incidents => ?_, fun lines incidents =>
    ⟨List.filter_sublist _, fun inc => ?_⟩⟩
  · simp [getRelevantIncidents, incidentRelevant]
  · simp [getRelevantIncidents, incidentRelevant, List.mem_filter,
      List.any_eq_true]

/-- C4: when neither partial nor fuzzy search finds a station, the rail
path returns the not-found sentinel (JS `null`), a value distinct from
the empty-array sentinel an upstream failure produces. -/
theorem notFoundSentinelDistinct :
    ∀ (fuzzy : String → List StationRecord → Option StationRecord)
      (env : RailEnv) (station : String) (stations : List StationRecord),
      env.stations = .ok stations →
      stationPartialSearch (strToLower station) stations = none →
      fuzzy (strToLower station) stations = none →
      fetchTrainTimetable fuzzy env station = .notFound ∧
        TrainResult.notFound ≠ TrainResult.errorEmpty := by
  intro fuzzy env station stations hs hp hf
  refine ⟨?_, by simp⟩
  unfold fetchTrainTimetable fetchTrainTimetableT fetchTrainTimetableBody
  rw [hs]
  simp [resolveStation, hp, hf]

/-- Witness for C4 at the spec's end-to-end example query. -/
theorem notFoundSentinelDistinct_witness :
    fetchTrainTimetable (fun _ _ => none) railEnvW "zzzznotastation" = .notFound ∧
      TrainResult.notFound ≠ TrainResult.errorEmpty :=
  notFoundSentinelDistinct (fun _ _ => none) railEnvW "zzzznotastation"
    [stMetroCenter] rfl (by decide) rfl

/-- C10: when resolution fails, the rail path has issued only the
station-list fetch — no prediction and no incident fetch — and its
result does not depend on the prediction or incident feeds. -/
theorem notFoundIssuesNoFurtherFetch :
    ∀ (fuzzy : String → List StationRecord → Option StationRecord)
      (env : RailEnv) (station : String) (stations : List StationRecord),
      env.stations = .ok stations →
      resolveStation fuzzy (strToLower station) stations = none →
      fetchTrainTimetableT fuzzy env station = (.notFound, [FetchEvent.stationList]) ∧
        ∀ env' : RailEnv, env'.stations = env.stations →
          fetchTrainTimetableT fuzzy env' station = fetchTrainTimetableT fuzzy env station := by
  intro fuzzy env station stations hs hr
  have key : ∀ e : RailEnv, e.stations = Except.ok stations →
      fetchTrainTimetableT fuzzy e station = (.notFound, [FetchEvent.stationList]) := by
    intro e he
    unfold fetchTrainTimetableT fetchTrainTimetableBody
    rw [he]
    simp [hr]
  exact ⟨key env hs, fun env' h' => by rw [key env' (h'.trans hs), key env hs]⟩

/-- Witness for C10: the unmatched query leaves the trace at the single
station-list fetch. -/
theorem notFoundIssuesNoFurtherFetch_witness :
    fetchTrainTimetableT (fun _ _ => none) railEnvW "zzzznotastation" =
      (.notFound, [FetchEvent.stationList]) :=
  (notFoundIssuesNoFurtherFetch (fun _ _ => none) railEnvW "zzzznotastation"
    [stMetroCenter] rfl (by decide)).1

/-- C7: partial search is consulted first — whenever it finds a record
the resolver returns that record whatever the fuzzy strategy would say —
and a query that is a substring of a station's lower-cased name (or vice
versa) guarantees partial search finds some record. -/
theorem partialSearchPrecedesFuzzy :
    (∀ (fuzzy : String → List StationRecord → Option StationRecord)
      (q : String) (stations : List StationRecord) (r : StationRecord),
      stationPartialSearch q stations = some r →
      resolveStation fuzzy q stations = some r) ∧
    (∀ (station : String) (stations : List StationRecord) (st : StationRecord),
      st ∈ stations →
      (strIncludes (strToLower st.Name) (strToLower station) = true ∨
       strIncludes (strToLower station) (strToLower st.Name) = true) →
      ∃ r, stationPartialSearch (strToLower station) stations = some r ∧
        ∀ fuzzy, resolveStation fuzzy (strToLower station) stations = some r) := by
  constructor
  · intro fuzzy q stations r h
    simp [resolveStation, h]
  · intro station stations st hmem hsub
    cases hfind : stationPartialSearch (strToLower station) stations with
    | none =>
      exfalso
      unfold stationPartialSearch at hfind
      have hnone := List.find?_eq_none.mp hfind st hmem
      rw [Bool.or_eq_true] at hnone
      exact hnone hsub
    | some r =>
      exact ⟨r, rfl, fun fuzzy => by simp [resolveStation, hfind]⟩

/-- Witness for C7: the partial hit on Metro Center is returned even
though the fuzzy strategy would name a different record. -/
theorem partialSearchPrecedesFuzzy_witness :
    resolveStation (fun _ _ => some stSingle) "metro center" [stMetroCenter] =
      some stMetroCenter :=
  partialSearchPrecedesFuzzy.1 (fun _ _ => some stSingle) "metro center"
    [stMetroCenter] stMetroCenter (by decide)

/-- C3 counterexample: for a station with no paired platform the rail
path returns the primary feed in feed order, which differs from the
sorted-then-filtered list the claim requires — `merge(L, absent)` is not
`filter(sort(L))`. -/
theorem singlePlatformOutputNotSorted :
    fetchTrainTimetable (fun _ _ => none) railEnvSingle "x" =
      .found "X" [⟨"RD", "Glenmont", "5"⟩, ⟨"RD", "Shady Grove", "2"⟩] [] ∧
    ([⟨"RD", "Glenmont", "5"⟩, ⟨"RD", "Shady Grove", "2"⟩] : List PredictionEntry) ≠
      (sortPredictions [⟨"RD", "Glenmont", "5"⟩, ⟨"RD", "Shady Grove", "2"⟩]).filter
        predictionFilter :=
  ⟨by decide, by decide⟩

/-- C3 amended: with no paired platform the merge step degenerates to
the sentinel filter alone — the primary list is not re-sorted, so the
output keeps the feed's order. -/
theorem singlePlatformFilterWithoutSort :
    ∀ (fuzzy : String → List StationRecord → Option StationRecord)
      (env : RailEnv) (station : String) (stations : List StationRecord)
      (stationData : StationRecord) (primary : List PredictionEntry),
      env.stations = .ok stations →
      resolveStation fuzzy (strToLower station) stations = some stationData →
      stationTogetherCode stationData = none →
      env.predictions stationData.Code = .ok primary →
      fetchTrainTimetable fuzzy env station =
        .found stationData.Name (primary.filter predictionFilter)
          (getRelevantIncidents (extractLines stationData)
            (fetchIncidents env.incidents)) := by
  intro fuzzy env station stations sd primary hs hr ht hp
  unfold fetchTrainTimetable fetchTrainTimetableT fetchTrainTimetableBody
  rw [hs]
  simp [hr, hp, ht, railAssemble]

/-- Witness for C3's amended statement at the unsorted two-element
feed. -/
theorem singlePlatformFilterWithoutSort_witness :
    fetchTrainTimetable (fun _ _ => none) railEnvSingle "x" =
      .found "X" (unsortedFeed.filter predictionFilter)
        (getRelevantIncidents (extractLines stSingle)
          (fetchIncidents railEnvSingle.incidents)) :=
  singlePlatformFilterWithoutSort (fun _ _ => none) railEnvSingle "x"
    [stSingle] stSingle unsortedFeed rfl (by decide) rfl rfl

/-- C6: the sentinel filter is exact string equality against the fixed
set {Line = "None", Line = "No", Destination = "ssenger",
Destination = "Train"}, and no entry matching it appears in the
prediction list of any assembled rail result. -/
theorem sentinelEntriesAbsent :
    (∀ e : PredictionEntry,
      predictionFilter e = true ↔
        (e.Line ≠ "None" ∧ e.Line ≠ "No" ∧
          e.Destination ≠ "ssenger" ∧ e.Destination ≠ "Train")) ∧
    (∀ (fuzzy : String → List StationRecord → Option StationRecord)
      (env : RailEnv) (station name : String)
      (preds : List PredictionEntry) (incs : List IncidentRecord),
      fetchTrainTimetable fuzzy env station = .found name preds incs →
      ∀ e ∈ preds,
        e.Line ≠ "None" ∧ e.Line ≠ "No" ∧
          e.Destination ≠ "ssenger" ∧ e.Destination ≠ "Train") := by
  have hchar : ∀ e : PredictionEntry,
      predictionFilter e = true ↔
        (e.Line ≠ "None" ∧ e.Line ≠ "No" ∧
          e.Destination ≠ "ssenger" ∧ e.Destination ≠ "Train") := by
    intro e
    simp [predictionFilter, and_assoc]
  refine ⟨hchar, ?_⟩
  intro fuzzy env station name preds incs h e he
  rcases fetchTrainTimetable_cases fuzzy env station with hc | hc | ⟨sd, trains, hc⟩
  · rw [h] at hc; exact absurd hc (by simp)
  · rw [h] at hc; exact absurd hc (by simp)
  · rw [h] at hc
    obtain ⟨-, hpreds, -⟩ := TrainResult.found.inj hc
    rw [hpreds] at he
    exact (hchar e).mp (List.mem_filter.mp he).2

/-- Witness for C6: the first entry of a concrete assembled result
dodges every sentinel value. -/
theorem sentinelEntriesAbsent_witness :
    (⟨"RD", "Glenmont", "5"⟩ : PredictionEntry).Line ≠ "None" ∧
      (⟨"RD", "Glenmont", "5"⟩ : PredictionEntry).Line ≠ "No" ∧
      (⟨"RD", "Glenmont", "5"⟩ : PredictionEntry).Destination ≠ "ssenger" ∧
      (⟨"RD", "Glenmont", "5"⟩ : PredictionEntry).Destination ≠ "Train" :=
  sentinelEntriesAbsent.2 (fun _ _ => none) railEnvSingle "x" "X"
    [⟨"RD", "Glenmont", "5"⟩, ⟨"RD", "Shady Grove", "2"⟩] [] (by decide)
    ⟨"RD", "Glenmont", "5"⟩ (List.mem_cons_self _ _)

/-- C5: an upstream failure never escapes as an exception — the
incident fetch swallows its own failures into an empty list, the rail
and bus paths convert any exception escaping their bodies into the
empty-array sentinel, and a failing incident feed degrades only the
incident list while the rest of the rail aggregation proceeds. -/
theorem upstreamFailureNeverPropagates :
    (∀ feed : Except Unit (List IncidentRecord),
      feed = .error () → fetchIncidents feed = []) ∧
    (∀ (fuzzy : String → List StationRecord → Option StationRecord)
      (env : RailEnv) (station : String),
      (fetchTrainTimetableBody fuzzy env station).1 = .error () →
      fetchTrainTimetable fuzzy env station = .errorEmpty) ∧
    (∀ (env : BusEnv) (stop : String),
      fetchBusTimetableBody env stop = .error () →
      fetchBusTimetable env stop = .errorEmpty) ∧
    (∀ (fuzzy : String → List StationRecord → Option StationRecord)
      (env : RailEnv) (station : String) (stations : List StationRecord)
      (stationData : StationRecord) (primary : List PredictionEntry),
      env.stations = .ok stations →
      resolveStation fuzzy (strToLower station) stations = some stationData →
      stationTogetherCode stationData = none →
      env.predictions stationData.Code = .ok primary →
      env.incidents = .error () →
      fetchTrainTimetable fuzzy env station =
        .found stationData.Name (primary.filter predictionFilter) []) := by
  refine ⟨fun feed h => by rw [h]; rfl, ?_, ?_, ?_⟩
  · intro fuzzy env station h
    unfold fetchTrainTimetable fetchTrainTimetableT
    cases hb : fetchTrainTimetableBody fuzzy env station with
    | mk body evs =>
      rw [hb] at h
      simp only at h
      rw [h]
  · intro env stop h
    unfold fetchBusTimetable
    rw [h]
  · intro fuzzy env station stations sd primary hs hr ht hp hi
    unfold fetchTrainTimetable fetchTrainTimetableT fetchTrainTimetableBody
    rw [hs]
    simp [hr, hp, ht, hi, railAssemble, fetchIncidents, getRelevantIncidents]

/-- Witness for C5: a dead prediction feed degrades the whole rail
result to the empty-array sentinel, while a dead incident feed degrades
only the incident list. -/
theorem upstreamFailureNeverPropagates_witness :
    fetchTrainTimetable (fun _ _ => none) railEnvW "Metro Center" = .errorEmpty ∧
    fetchBusTimetable busEnvW "no digits here" = .errorEmpty ∧
    fetchTrainTimetable (fun _ _ => none) railEnvIncFail "x" =
      .found "X" (unsortedFeed.filter predictionFilter) [] :=
  ⟨upstreamFailureNeverPropagates.2.1 (fun _ _ => none) railEnvW "Metro Center"
      rfl,
   upstreamFailureNeverPropagates.2.2.1 busEnvW "no digits here" rfl,
   upstreamFailureNeverPropagates.2.2.2 (fun _ _ => none) railEnvIncFail "x"
      [stSingle] stSingle unsortedFeed rfl (by decide) rfl rfl rfl⟩

end DCMetro
